import Mathlib

/-
Shallow embedding of the license-management backend in src/index.js
(PC Optimizer Pro).  Timestamps are modelled as natural numbers
(milliseconds since epoch); JS ISO strings compare exactly like their
numeric timestamps.  A JS field that is absent, null or the empty string
is modelled as `none` for optional numeric fields and as `""` for string
fields (both are falsy in JS, and the code only tests them for
truthiness or strict equality against non-empty strings).
-/

namespace PCOpt

/-- The closed set of string outcome codes returned by the two API routes
(src/index.js lines 285-361). -/
inductive Outcome where
  | FAILED
  | API_DISABLED
  | BANNED
  | INVALID_LICENSE
  | EXPIRED
  | VALID
  | HWID_MISMATCH
  | ALREADY_REGISTERED
  | HWID_IN_USE
  | SUCCESS
  | ERROR
deriving DecidableEq, Repr

/-- One entry of a license record's `history` array, as written by the
register route (src/index.js lines 347-352): `action`, ISO `date`,
`details` and `ip`. -/
structure HistoryEntry where
  action : String
  date : Nat
  details : String
  ip : String
deriving DecidableEq, Repr

/-- A license document in the `licenses` collection (src/index.js data
model: generate-license lines 1643-1650, register lines 340-353).
`hwid = ""` means unbound (JS: absent or empty string, both falsy). -/
structure License where
  hwid : String
  expiry : Option Nat
  activatedAt : Option Nat
  lastValidated : Option Nat
  createdAt : Nat
  createdBy : String
  activationIP : String
  deviceInfo : String
  history : List HistoryEntry
  batchId : Option Nat
deriving DecidableEq, Repr

/-- The `settings/general` document (src/index.js lines 226-232). -/
structure Settings where
  apiEnabled : Bool
  maxDevicesPerLicense : Nat
  allowHwidChange : Bool
  autoExpireInDays : Nat
  maintenanceMode : Bool
deriving DecidableEq, Repr

/-- The persistent state: the `licenses` collection (document id ->
data, modelled as an association list in document order), the optional
`settings/banlist` document, the optional `settings/general` document,
and the append-only `activityLog` collection (action, details). -/
structure Store where
  licenses : List (String × License)
  banlistDoc : Option (List String)
  settingsDoc : Option Settings
  activityLog : List (String × String)
deriving DecidableEq, Repr

/-- Which persistence calls throw inside their helper's `try` block.
Every DB helper in src/index.js wraps its Firestore call in
`try/catch` and returns a default value on error. -/
structure Faults where
  getSettingsFails : Bool
  getBanlistFails : Bool
  getLicenseFails : Bool
  getLicensesFails : Bool
  saveLicenseFails : Bool
  saveBanlistFails : Bool
  logFails : Bool
deriving DecidableEq, Repr

/-- The fault-free execution, the normal operating mode. -/
def noFaults : Faults :=
  { getSettingsFails := false, getBanlistFails := false, getLicenseFails := false
    getLicensesFails := false, saveLicenseFails := false, saveBanlistFails := false
    logFails := false }

/-- First-match lookup of a document id in the `licenses` collection
(Firestore `doc(licenseKey).get()`; document ids are unique, the list
model uses first match). -/
def lookupLicense : List (String × License) → String → Option License
  | [], _ => none
  | p :: rest, key => if p.1 = key then some p.2 else lookupLicense rest key

/-- Firestore `doc(licenseKey).set(data)` on the association-list model:
replace the document if present, otherwise create it. -/
def setLicense (ls : List (String × License)) (key : String) (data : License) :
    List (String × License) :=
  if (lookupLicense ls key).isSome then
    ls.map (fun p => if p.1 = key then (key, data) else p)
  else ls ++ [(key, data)]

/-- `getLicense` (src/index.js lines 83-91): returns the document data,
or `null` both when the document does not exist and when the Firestore
call throws (the catch block returns `null`). -/
def getLicense (f : Faults) (db : Store) (licenseKey : String) : Option License :=
  if f.getLicenseFails then none else lookupLicense db.licenses licenseKey

/-- `getLicenses` (src/index.js lines 69-81): all documents of the
`licenses` collection; the catch block returns the empty object. -/
def getLicenses (f : Faults) (db : Store) : List (String × License) :=
  if f.getLicensesFails then [] else db.licenses

/-- `saveLicense` (src/index.js lines 93-101): `set(data, merge)` of a
full record; the catch block swallows the error and the store is
unchanged (the routes ignore the returned boolean). -/
def saveLicense (f : Faults) (db : Store) (licenseKey : String) (data : License) : Store :=
  if f.saveLicenseFails then db
  else { db with licenses := setLicense db.licenses licenseKey data }

/-- `getBanlist` (src/index.js lines 113-121): the `hwids` array of the
`settings/banlist` document, `[]` when the document is missing or the
call throws. -/
def getBanlist (f : Faults) (db : Store) : List String :=
  if f.getBanlistFails then []
  else match db.banlistDoc with
    | some hwids => hwids
    | none => []

/-- `saveBanlist` (src/index.js lines 123-131). -/
def saveBanlist (f : Faults) (db : Store) (banlist : List String) : Store :=
  if f.saveBanlistFails then db else { db with banlistDoc := some banlist }

/-- `getSettings` (src/index.js lines 223-237): the `settings/general`
document when present, the coded defaults when absent, and the empty
object when the call throws — on the empty object every field read is
`undefined`, hence falsy, modelled by an all-false/zero record. -/
def getSettings (f : Faults) (db : Store) : Settings :=
  if f.getSettingsFails then
    { apiEnabled := false, maxDevicesPerLicense := 0, allowHwidChange := false
      autoExpireInDays := 0, maintenanceMode := false }
  else match db.settingsDoc with
    | some s => s
    | none =>
      { apiEnabled := true, maxDevicesPerLicense := 1, allowHwidChange := true
        autoExpireInDays := 30, maintenanceMode := false }

/-- `logActivity` (src/index.js lines 134-147): appends one entry to the
`activityLog` collection; its catch block swallows any error. -/
def logActivity (f : Faults) (db : Store) (action details : String) : Store :=
  if f.logFails then db
  else { db with activityLog := db.activityLog ++ [(action, details)] }

/-- `isLicenseExpired` (src/index.js lines 258-261): false when `expiry`
is falsy (absent/null/empty), otherwise `now > expiry` with strict
comparison of the date values. -/
def isLicenseExpired (license : License) (now : Nat) : Bool :=
  match license.expiry with
  | none => false
  | some expiry => now > expiry

/-- `isHWIDBanned` (src/index.js lines 263-265): exact-match membership
in the ban list (`banlist.includes(hwid)`). -/
def isHWIDBanned (hwid : String) (banlist : List String) : Bool :=
  banlist.contains hwid

/-- The scan of register (src/index.js lines 332-337): some other
document (a different id) has this exact hwid; the for loop returns on
the first hit, which for a pure predicate is `List.any`. -/
def hwidInUse (allLicenses : List (String × License)) (license hwid : String) : Bool :=
  allLicenses.any (fun p => p.2.hwid == hwid && p.1 != license)

/-- `GET /api/validate` (src/index.js lines 285-311), with the fault
model threaded through every DB helper.  Returns the response body and
the resulting store. -/
def validateF (f : Faults) (db : Store) (license hwid : String) (now : Nat) :
    Outcome × Store :=
  if license = "" ∨ hwid = "" then (.FAILED, db)
  else
    let db := logActivity f db "API_VALIDATE"
      ("License: " ++ license ++ " HWID: " ++ hwid)
    let settings := getSettings f db
    if settings.apiEnabled = false then (.API_DISABLED, db)
    else
      let banlist := getBanlist f db
      if isHWIDBanned hwid banlist = true then (.BANNED, db)
      else
        match getLicense f db license with
        | none => (.INVALID_LICENSE, db)
        | some lic =>
          if isLicenseExpired lic now = true then (.EXPIRED, db)
          else if lic.hwid = hwid then
            (.VALID, saveLicense f db license { lic with lastValidated := some now })
          else (.HWID_MISMATCH, db)

/-- `GET /api/register` (src/index.js lines 313-361), fault model
threaded through every DB helper.  `ip` and `ua` are the request's IP
and User-Agent header (`""` when the header is missing). -/
def registerF (f : Faults) (db : Store) (license hwid : String) (now : Nat)
    (ip ua : String) : Outcome × Store :=
  if license = "" ∨ hwid = "" then (.FAILED, db)
  else
    let db := logActivity f db "API_REGISTER"
      ("License: " ++ license ++ " HWID: " ++ hwid)
    let settings := getSettings f db
    if settings.apiEnabled = false then (.API_DISABLED, db)
    else
      let banlist := getBanlist f db
      if isHWIDBanned hwid banlist = true then (.BANNED, db)
      else
        match getLicense f db license with
        | none => (.INVALID_LICENSE, db)
        | some lic =>
          if isLicenseExpired lic now = true then (.EXPIRED, db)
          else if lic.hwid ≠ "" ∧ lic.hwid ≠ hwid then (.ALREADY_REGISTERED, db)
          else
            let allLicenses := getLicenses f db
            if hwidInUse allLicenses license hwid = true then (.HWID_IN_USE, db)
            else
              let updatedLic : License :=
                { lic with
                  hwid := hwid
                  activatedAt := some now
                  lastValidated := some now
                  activationIP := ip
                  deviceInfo := if ua = "" then "Unknown" else ua
                  history := lic.history ++
                    [{ action := "REGISTER", date := now, details := hwid, ip := ip }] }
              (.SUCCESS, saveLicense f db license updatedLic)

/-- Fault-free `GET /api/validate`. -/
def validate (db : Store) (license hwid : String) (now : Nat) : Outcome × Store :=
  validateF noFaults db license hwid now

/-- Fault-free `GET /api/register`. -/
def register (db : Store) (license hwid : String) (now : Nat) (ip ua : String) :
    Outcome × Store :=
  registerF noFaults db license hwid now ip ua

/-- `POST /admin/generate-license` (src/index.js lines 1633-1660).
`key` is `req.body.license` or the freshly generated key; the boolean is
false exactly on the duplicate-key rejection (the "License already
exists!" alert), in which case nothing is written. -/
def generateLicense (f : Faults) (db : Store) (key : String) (expiry : Option Nat)
    (now : Nat) (user : String) : Bool × Store :=
  match getLicense f db key with
  | some _ => (false, db)
  | none =>
    let licenseData : License :=
      { hwid := "", activatedAt := none, expiry := expiry, history := []
        createdAt := now, createdBy := user
        lastValidated := none, activationIP := "", deviceInfo := "", batchId := none }
    let db := saveLicense f db key licenseData
    let db := logActivity f db "LICENSE_GENERATED" key
    (true, db)

/-- The document written for one key of `POST /admin/bulk-generate`
(src/index.js lines 1674-1684).  `saveLicense` uses
`set(data, merge)`, so when a generated key collides with an existing
document the fields of the bulk data overwrite the existing ones and the
fields the bulk data lacks (`lastValidated`, `activationIP`,
`deviceInfo`) survive from the existing document. -/
def bulkLicenseData (existing : Option License) (now : Nat) (user : String)
    (bid : Nat) : License :=
  match existing with
  | none =>
    { hwid := "", activatedAt := none, expiry := none, history := []
      createdAt := now, createdBy := user
      lastValidated := none, activationIP := "", deviceInfo := "", batchId := some bid }
  | some rec =>
    { rec with
      hwid := "", activatedAt := none, expiry := none, history := []
      createdAt := now, createdBy := user, batchId := some bid }

/-- `POST /admin/bulk-generate` (src/index.js lines 1662-1695): rejects
more than 100 keys, otherwise saves each generated key in turn with no
duplicate check (`keys` stands for the values returned by the random key
generator, `bid` for `Date.now()`). -/
def bulkGenerate (f : Faults) (db : Store) (keys : List String) (now : Nat)
    (user : String) (bid : Nat) : Store :=
  if keys.length > 100 then db
  else
    let db := keys.foldl
      (fun acc key => saveLicense f acc key (bulkLicenseData (getLicense f acc key) now user bid))
      db
    logActivity f db "BULK_GENERATE" user

/-- JS `String.prototype.trim`: remove whitespace from both ends of the
string, modelled on the character list. -/
def jsTrim (s : String) : String :=
  ⟨((s.data.dropWhile Char.isWhitespace).reverse.dropWhile Char.isWhitespace).reverse⟩

/-- `POST /admin/ban-hwid` (src/index.js lines 1774-1791): when `hwid`
and `hwid.trim()` are both truthy and the trimmed value is not yet in
the ban list, push the trimmed value and save; otherwise no write. -/
def banHwidRoute (f : Faults) (db : Store) (hwid : String) : Store :=
  if hwid ≠ "" ∧ jsTrim hwid ≠ "" then
    let banlist := getBanlist f db
    if (banlist.contains (jsTrim hwid)) = false then
      let db := saveBanlist f db (banlist ++ [jsTrim hwid])
      logActivity f db "HWID_BANNED" ("HWID: " ++ hwid)
    else db
  else db

/-- Spec section 4.4 wording: a record is expired when an expiry is set
and the current time is strictly greater than it. -/
def specExpired (expiry : Option Nat) (now : Nat) : Prop :=
  ∃ e, expiry = some e ∧ now > e

instance specExpiredDec (expiry : Option Nat) (now : Nat) : Decidable (specExpired expiry now) :=
  match expiry with
  | none => isFalse (fun ⟨_, he, _⟩ => Option.noConfusion he)
  | some e =>
    if h : now > e then isTrue ⟨e, rfl, h⟩
    else isFalse (fun ⟨_, he, hn⟩ => h (Option.some.inj he ▸ hn))

/-- Spec-side restatement of the validate decision order, written from
the words of spec section 4.1 (steps 1-6), for comparison with the
implementation: API disabled, banned, missing record, expired
(current time strictly greater than the stored expiry, when set), bound
hwid equal to the candidate, otherwise mismatch. -/
def specValidateOutcome (apiEnabled : Bool) (banlist : List String)
    (record : Option License) (hwid : String) (now : Nat) : Outcome :=
  if apiEnabled = false then .API_DISABLED
  else if hwid ∈ banlist then .BANNED
  else match record with
    | none => .INVALID_LICENSE
    | some rec =>
      if specExpired rec.expiry now then .EXPIRED
      else if rec.hwid = hwid then .VALID
      else .HWID_MISMATCH

/-! Concrete sample data used by witnesses and counterexamples. -/

/-- An unbound, never-expiring license record. -/
def licUnbound : License :=
  { hwid := "", expiry := none, activatedAt := none, lastValidated := none
    createdAt := 0, createdBy := "admin", activationIP := "", deviceInfo := ""
    history := [], batchId := none }

/-- A record bound to HWID `H1`. -/
def licBoundH1 : License := { licUnbound with hwid := "H1" }

/-- The default settings document with the API enabled. -/
def settingsOn : Settings :=
  { apiEnabled := true, maxDevicesPerLicense := 1, allowHwidChange := true
    autoExpireInDays := 30, maintenanceMode := false }

/-- The record written by a successful register (src/index.js lines
340-353): bind the hwid, stamp `activatedAt` and `lastValidated`, record
the activation IP and device info, append a `REGISTER` history entry. -/
def registeredLicense (lic : License) (hwid : String) (now : Nat) (ip ua : String) :
    License :=
  { lic with
    hwid := hwid
    activatedAt := some now
    lastValidated := some now
    activationIP := ip
    deviceInfo := if ua = "" then "Unknown" else ua
    history := lic.history ++
      [{ action := "REGISTER", date := now, details := hwid, ip := ip }] }

/-- A store holding one unbound license `K1`, an empty ban list, and the
API enabled. -/
def dbOne : Store :=
  { licenses := [("K1", licUnbound)], banlistDoc := some []
    settingsDoc := some settingsOn, activityLog := [] }

/-- A store with two unbound licenses `K1` and `K2`. -/
def dbTwo : Store :=
  { licenses := [("K1", licUnbound), ("K2", licUnbound)], banlistDoc := some []
    settingsDoc := some settingsOn, activityLog := [] }

/-- A store where `K1` is already bound to `H1`. -/
def dbBound : Store := { dbOne with licenses := [("K1", licBoundH1)] }

/-- A store with `H1` banned and the API enabled. -/
def dbBanned : Store := { dbOne with banlistDoc := some ["H1"] }

/-- A store with `H1` banned and the API disabled. -/
def dbDisabledBan : Store :=
  { dbBanned with settingsDoc := some { settingsOn with apiEnabled := false } }

/-- A bound record carrying one history entry, to make overwrites
visible. -/
def licWithHistory : License :=
  { licBoundH1 with history := [{ action := "REGISTER", date := 1, details := "H1", ip := "ip0" }] }

/-- A store whose license `K1` is bound and has history. -/
def dbDup : Store := { dbOne with licenses := [("K1", licWithHistory)] }

/-! Lemmas about the association-list model of the `licenses`
collection. -/

theorem lookupLicense_map_update_ne (ls : List (String × License)) (key : String)
    (data : License) {k : String} (hne : k ≠ key) :
    lookupLicense (ls.map (fun p => if p.1 = key then (key, data) else p)) k =
      lookupLicense ls k := by
  induction ls with
  | nil => rfl
  | cons p rest ih =>
    simp only [List.map_cons, lookupLicense]
    by_cases hp : p.1 = key
    · rw [if_pos hp]
      simp only []
      rw [if_neg (Ne.symm hne), if_neg (fun hk : p.1 = k => hne (hp ▸ hk).symm), ih]
    · rw [if_neg hp, ih]

theorem lookupLicense_map_update_self (ls : List (String × License)) (key : String)
    (data : License) {v : License} (h : lookupLicense ls key = some v) :
    lookupLicense (ls.map (fun p => if p.1 = key then (key, data) else p)) key =
      some data := by
  induction ls with
  | nil => exact absurd h (by simp [lookupLicense])
  | cons p rest ih =>
    simp only [List.map_cons, lookupLicense]
    by_cases hp : p.1 = key
    · simp [hp]
    · simp only [if_neg hp]
      simp only [lookupLicense, if_neg hp] at h
      exact ih h

theorem lookupLicense_append (ls ms : List (String × License)) (k : String) :
    lookupLicense (ls ++ ms) k =
      match lookupLicense ls k with
      | some v => some v
      | none => lookupLicense ms k := by
  induction ls with
  | nil => rfl
  | cons p rest ih =>
    simp only [List.cons_append, lookupLicense]
    by_cases hp : p.1 = k
    · simp [hp]
    · simp only [if_neg hp]
      exact ih

theorem lookupLicense_setLicense_self (ls : List (String × License)) (key : String)
    (data : License) :
    lookupLicense (setLicense ls key data) key = some data := by
  unfold setLicense
  split
  · next h =>
    obtain ⟨v, hv⟩ := Option.isSome_iff_exists.mp h
    exact lookupLicense_map_update_self ls key data hv
  · next h =>
    have hnone : lookupLicense ls key = none := Option.not_isSome_iff_eq_none.mp h
    rw [lookupLicense_append, hnone]
    simp [lookupLicense]

theorem lookupLicense_setLicense_ne (ls : List (String × License)) (key : String)
    (data : License) {k : String} (hne : k ≠ key) :
    lookupLicense (setLicense ls key data) k = lookupLicense ls k := by
  unfold setLicense
  split
  · exact lookupLicense_map_update_ne ls key data hne
  · rw [lookupLicense_append]
    cases hl : lookupLicense ls k with
    | some v => rfl
    | none => simp [lookupLicense, Ne.symm hne]

theorem mem_of_lookupLicense {ls : List (String × License)} {k : String} {v : License}
    (h : lookupLicense ls k = some v) : (k, v) ∈ ls := by
  induction ls with
  | nil => exact absurd h (by simp [lookupLicense])
  | cons p rest ih =>
    simp only [lookupLicense] at h
    by_cases hp : p.1 = k
    · rw [if_pos hp] at h
      have hv := Option.some.inj h
      have hpk : p = (k, v) := by
        cases p
        simp_all
      rw [← hpk]
      exact List.mem_cons_self _ _
    · rw [if_neg hp] at h
      exact List.mem_cons_of_mem _ (ih h)

theorem hwidInUse_iff (ls : List (String × License)) (k h : String) :
    hwidInUse ls k h = true ↔ ∃ p ∈ ls, p.2.hwid = h ∧ p.1 ≠ k := by
  simp [hwidInUse, List.any_eq_true]

theorem hwidInUse_map_update (ls : List (String × License)) (k h : String)
    (v : License) :
    hwidInUse (ls.map (fun p => if p.1 = k then (k, v) else p)) k h =
      hwidInUse ls k h := by
  induction ls with
  | nil => rfl
  | cons p rest ih =>
    simp only [List.map_cons, hwidInUse, List.any_cons] at ih ⊢
    by_cases hp : p.1 = k
    · rw [if_pos hp]
      rw [show ((k, v).2.hwid == h && (k, v).1 != k) = false by simp]
      rw [show (p.2.hwid == h && p.1 != k) = false by simp [hp]]
      rw [Bool.false_or, Bool.false_or]
      exact ih
    · rw [if_neg hp, ih]

theorem hwidInUse_setLicense_self (ls : List (String × License)) (k h : String)
    (v : License) :
    hwidInUse (setLicense ls k v) k h = hwidInUse ls k h := by
  unfold setLicense
  split
  · exact hwidInUse_map_update ls k h v
  · simp [hwidInUse, List.any_append]

/-! Lemmas relating DB helpers across logging and saves: `logActivity`
touches only the activity log, `saveLicense` only the `licenses`
collection. -/

theorem licenses_logActivity (f : Faults) (db : Store) (a d : String) :
    (logActivity f db a d).licenses = db.licenses := by
  unfold logActivity
  split <;> rfl

theorem settingsDoc_logActivity (f : Faults) (db : Store) (a d : String) :
    (logActivity f db a d).settingsDoc = db.settingsDoc := by
  unfold logActivity
  split <;> rfl

theorem banlistDoc_logActivity (f : Faults) (db : Store) (a d : String) :
    (logActivity f db a d).banlistDoc = db.banlistDoc := by
  unfold logActivity
  split <;> rfl

theorem settingsDoc_saveLicense (f : Faults) (db : Store) (k : String) (v : License) :
    (saveLicense f db k v).settingsDoc = db.settingsDoc := by
  unfold saveLicense
  split <;> rfl

theorem banlistDoc_saveLicense (f : Faults) (db : Store) (k : String) (v : License) :
    (saveLicense f db k v).banlistDoc = db.banlistDoc := by
  unfold saveLicense
  split <;> rfl

theorem getSettings_logActivity (f f2 : Faults) (db : Store) (a d : String) :
    getSettings f (logActivity f2 db a d) = getSettings f db := by
  unfold getSettings
  rw [settingsDoc_logActivity]

theorem getBanlist_logActivity (f f2 : Faults) (db : Store) (a d : String) :
    getBanlist f (logActivity f2 db a d) = getBanlist f db := by
  unfold getBanlist
  rw [banlistDoc_logActivity]

theorem getLicense_logActivity (f f2 : Faults) (db : Store) (a d k : String) :
    getLicense f (logActivity f2 db a d) k = getLicense f db k := by
  unfold getLicense
  rw [licenses_logActivity]

theorem getLicenses_logActivity (f f2 : Faults) (db : Store) (a d : String) :
    getLicenses f (logActivity f2 db a d) = getLicenses f db := by
  unfold getLicenses
  rw [licenses_logActivity]

theorem getSettings_saveLicense (f f2 : Faults) (db : Store) (k : String) (v : License) :
    getSettings f (saveLicense f2 db k v) = getSettings f db := by
  unfold getSettings
  rw [settingsDoc_saveLicense]

theorem getBanlist_saveLicense (f f2 : Faults) (db : Store) (k : String) (v : License) :
    getBanlist f (saveLicense f2 db k v) = getBanlist f db := by
  unfold getBanlist
  rw [banlistDoc_saveLicense]

theorem isHWIDBanned_iff (h : String) (l : List String) :
    isHWIDBanned h l = true ↔ h ∈ l := by
  simp [isHWIDBanned]

theorem isLicenseExpired_iff_specExpired (lic : License) (now : Nat) :
    isLicenseExpired lic now = true ↔ specExpired lic.expiry now := by
  cases h : lic.expiry <;> simp [isLicenseExpired, specExpired, h]

/-! The claims. -/

/-- C8: for every license record and time `now`, `isLicenseExpired` is
false when the record has no expiry set, false when `now` equals the
expiry exactly, and true exactly when `now` is strictly greater than the
expiry. -/
theorem isLicenseExpired_spec (lic : License) (now : Nat) :
    (isLicenseExpired lic now = true ↔ ∃ e, lic.expiry = some e ∧ e < now)
    ∧ isLicenseExpired { lic with expiry := none } now = false
    ∧ (∀ e : Nat, isLicenseExpired { lic with expiry := some e } e = false) := by
  refine ⟨?_, rfl, fun e => by simp [isLicenseExpired]⟩
  cases h : lic.expiry <;> simp [isLicenseExpired, h]

/-- Witness for C8 at a concrete input: a record expiring exactly at
time 5 is not expired at time 5. -/
theorem isLicenseExpired_spec_witness :
    isLicenseExpired { licUnbound with expiry := some 5 } 5 = false :=
  (isLicenseExpired_spec licUnbound 5).2.2 5

/-- C9: for every validate or register call in which the license key or
the hwid is missing or empty, the outcome is the distinct FAILED value
and the store — activity log included — is returned unchanged; the
result is the same for every store content and every fault state, so no
store access can influence it. -/
theorem missing_input_failed (f : Faults) (db : Store) (license hwid : String)
    (now : Nat) (ip ua : String) (h : license = "" ∨ hwid = "") :
    validateF f db license hwid now = (Outcome.FAILED, db)
    ∧ registerF f db license hwid now ip ua = (Outcome.FAILED, db) := by
  constructor
  · unfold validateF
    rw [if_pos h]
  · unfold registerF
    rw [if_pos h]

/-- Witness for C9 at a concrete input: empty license key against the
sample store. -/
theorem missing_input_failed_witness :
    validateF noFaults dbOne "" "H1" 0 = (Outcome.FAILED, dbOne)
    ∧ registerF noFaults dbOne "" "H1" 0 "ip1" "UA" = (Outcome.FAILED, dbOne) :=
  missing_input_failed noFaults dbOne "" "H1" 0 "ip1" "UA" (Or.inl rfl)

/-- Characterization of a fault-free register call that passes the
API-disabled, banned, missing-record and expired gates: the remaining
decision is already-registered, hwid-in-use, then success with the
updated record saved. -/
theorem register_eq (db : Store) (license hwid : String) (now : Nat) (ip ua : String)
    (lic : License) (hk : license ≠ "") (hh : hwid ≠ "")
    (hapi : (getSettings noFaults db).apiEnabled = true)
    (hban : isHWIDBanned hwid (getBanlist noFaults db) = false)
    (hlic : getLicense noFaults db license = some lic)
    (hexp : isLicenseExpired lic now = false) :
    register db license hwid now ip ua =
      (let dbL := logActivity noFaults db "API_REGISTER"
        ("License: " ++ license ++ " HWID: " ++ hwid)
       if lic.hwid ≠ "" ∧ lic.hwid ≠ hwid then (Outcome.ALREADY_REGISTERED, dbL)
       else if hwidInUse db.licenses license hwid = true then (Outcome.HWID_IN_USE, dbL)
       else (Outcome.SUCCESS,
         saveLicense noFaults dbL license (registeredLicense lic hwid now ip ua))) := by
  unfold register registerF
  rw [if_neg (by simp [hk, hh])]
  simp only [getSettings_logActivity, getBanlist_logActivity, getLicense_logActivity,
    getLicenses_logActivity]
  rw [if_neg (by simp [hapi]), if_neg (by simp [hban]), hlic]
  simp only [if_neg (by simp [hexp] : ¬isLicenseExpired lic now = true)]
  have hall : getLicenses noFaults db = db.licenses := rfl
  rw [hall]
  rfl

/-- C1: for every validate call with non-empty key and hwid, the outcome
equals the spec's six-step cascade (API disabled, banned, missing
record, expired, bound hwid equal — with `lastValidated` restamped —
otherwise mismatch); validate never changes any record's bound hwid, so
an unbound record yields HWID_MISMATCH and validate never binds. -/
theorem validate_decision_order (db : Store) (license hwid : String) (now : Nat)
    (hk : license ≠ "") (hh : hwid ≠ "") :
    (validate db license hwid now).1 =
      specValidateOutcome (getSettings noFaults db).apiEnabled (getBanlist noFaults db)
        (getLicense noFaults db license) hwid now
    ∧ (∀ k, Option.map License.hwid (getLicense noFaults (validate db license hwid now).2 k)
        = Option.map License.hwid (getLicense noFaults db k))
    ∧ ((validate db license hwid now).1 = Outcome.VALID →
        ∃ lic, getLicense noFaults db license = some lic ∧ lic.hwid = hwid ∧
          getLicense noFaults (validate db license hwid now).2 license =
            some { lic with lastValidated := some now }) := by
  unfold validate validateF specValidateOutcome
  rw [if_neg (by simp [hk, hh])]
  simp only [getSettings_logActivity, getBanlist_logActivity, getLicense_logActivity]
  by_cases hapi : (getSettings noFaults db).apiEnabled = false
  · simp [hapi, getLicense_logActivity]
  · rw [if_neg hapi, if_neg hapi]
    by_cases hban : isHWIDBanned hwid (getBanlist noFaults db) = true
    · rw [if_pos hban, if_pos ((isHWIDBanned_iff _ _).mp hban)]
      simp [getLicense_logActivity]
    · rw [if_neg hban, if_neg (fun hm => hban ((isHWIDBanned_iff _ _).mpr hm))]
      cases hlic : getLicense noFaults db license with
      | none =>
        simp [getLicense_logActivity]
      | some lic =>
        dsimp only
        by_cases hexp : isLicenseExpired lic now = true
        · rw [if_pos hexp, if_pos ((isLicenseExpired_iff_specExpired lic now).mp hexp)]
          simp [getLicense_logActivity]
        · rw [if_neg hexp,
            if_neg (fun hs => hexp ((isLicenseExpired_iff_specExpired lic now).mpr hs))]
          by_cases hw : lic.hwid = hwid
          · rw [if_pos hw, if_pos hw]
            dsimp only
            refine ⟨rfl, ?_, ?_⟩
            · intro k
              by_cases hkk : k = license
              · rw [hkk, hlic]
                have h1 : getLicense noFaults
                    (saveLicense noFaults
                      (logActivity noFaults db "API_VALIDATE"
                        ("License: " ++ license ++ " HWID: " ++ hwid)) license
                      { lic with lastValidated := some now }) license =
                    some { lic with lastValidated := some now } := by
                  unfold getLicense saveLicense
                  simp only [licenses_logActivity]
                  exact lookupLicense_setLicense_self _ _ _
                rw [h1]
                rfl
              · have h1 : getLicense noFaults
                    (saveLicense noFaults
                      (logActivity noFaults db "API_VALIDATE"
                        ("License: " ++ license ++ " HWID: " ++ hwid)) license
                      { lic with lastValidated := some now }) k =
                    getLicense noFaults db k := by
                  unfold getLicense saveLicense
                  simp only [licenses_logActivity]
                  exact lookupLicense_setLicense_ne _ _ _ hkk
                rw [h1]
            · intro _
              refine ⟨lic, rfl, hw, ?_⟩
              unfold getLicense saveLicense
              simp only [licenses_logActivity]
              exact lookupLicense_setLicense_self _ _ _
          · rw [if_neg hw, if_neg hw]
            simp [getLicense_logActivity]

/-- Witness for C1 at a concrete input: validating an unbound license
yields HWID_MISMATCH, matching the spec cascade. -/
theorem validate_decision_order_witness :
    (validate dbOne "K1" "H1" 5).1 =
      specValidateOutcome (getSettings noFaults dbOne).apiEnabled
        (getBanlist noFaults dbOne) (getLicense noFaults dbOne "K1") "H1" 5 :=
  (validate_decision_order dbOne "K1" "H1" 5 (by decide) (by decide)).1

/-- C2: a register call that passes the API-disabled, banned,
missing-record and expired gates yields ALREADY_REGISTERED when the
record holds a different non-empty hwid, HWID_IN_USE when some other
record in the store holds the candidate hwid, and otherwise SUCCESS with
the persisted record bound to the hwid, both timestamps set to now, the
activation IP and device info recorded, and a REGISTER entry appended to
history. -/
theorem register_decision_and_success (db : Store) (license hwid : String) (now : Nat)
    (ip ua : String) (lic : License)
    (hk : license ≠ "") (hh : hwid ≠ "")
    (hapi : (getSettings noFaults db).apiEnabled = true)
    (hban : isHWIDBanned hwid (getBanlist noFaults db) = false)
    (hlic : getLicense noFaults db license = some lic)
    (hexp : isLicenseExpired lic now = false) :
    (lic.hwid ≠ "" ∧ lic.hwid ≠ hwid →
      (register db license hwid now ip ua).1 = Outcome.ALREADY_REGISTERED)
    ∧ (¬(lic.hwid ≠ "" ∧ lic.hwid ≠ hwid) →
       (∃ p ∈ db.licenses, p.2.hwid = hwid ∧ p.1 ≠ license) →
      (register db license hwid now ip ua).1 = Outcome.HWID_IN_USE)
    ∧ (¬(lic.hwid ≠ "" ∧ lic.hwid ≠ hwid) →
       (¬∃ p ∈ db.licenses, p.2.hwid = hwid ∧ p.1 ≠ license) →
      (register db license hwid now ip ua).1 = Outcome.SUCCESS
      ∧ getLicense noFaults (register db license hwid now ip ua).2 license =
          some (registeredLicense lic hwid now ip ua)
      ∧ (registeredLicense lic hwid now ip ua).hwid = hwid
      ∧ (registeredLicense lic hwid now ip ua).activatedAt = some now
      ∧ (registeredLicense lic hwid now ip ua).lastValidated = some now
      ∧ (registeredLicense lic hwid now ip ua).activationIP = ip
      ∧ (registeredLicense lic hwid now ip ua).history =
          lic.history ++ [{ action := "REGISTER", date := now, details := hwid, ip := ip }]) := by
  rw [register_eq db license hwid now ip ua lic hk hh hapi hban hlic hexp]
  dsimp only
  refine ⟨?_, ?_, ?_⟩
  · intro hbound
    rw [if_pos hbound]
  · intro hbound huse
    rw [if_neg hbound, if_pos ((hwidInUse_iff _ _ _).mpr huse)]
  · intro hbound huse
    rw [if_neg hbound, if_neg (fun ht => huse ((hwidInUse_iff _ _ _).mp ht))]
    refine ⟨rfl, ?_, rfl, rfl, rfl, rfl, rfl⟩
    unfold getLicense saveLicense
    simp only [licenses_logActivity]
    exact lookupLicense_setLicense_self _ _ _

/-- Witness for C2 at a concrete input: registering the unbound sample
license succeeds and persists the bound record. -/
theorem register_decision_and_success_witness :
    (register dbOne "K1" "H1" 5 "ip1" "UA").1 = Outcome.SUCCESS
    ∧ getLicense noFaults (register dbOne "K1" "H1" 5 "ip1" "UA").2 "K1" =
        some (registeredLicense licUnbound "H1" 5 "ip1" "UA") := by
  have h := register_decision_and_success dbOne "K1" "H1" 5 "ip1" "UA" licUnbound
    (by decide) (by decide) (by decide) (by decide) (by decide) (by decide)
  have h3 := h.2.2 (by decide) (by decide)
  exact ⟨h3.1, h3.2.1⟩

/-- Inversion of a successful register: both inputs were non-empty, a
record existed, and the resulting store is exactly the store with the
log entry appended and the registered record saved. -/
theorem register_success_inv (db db2 : Store) (license hwid : String) (now : Nat)
    (ip ua : String)
    (h : register db license hwid now ip ua = (Outcome.SUCCESS, db2)) :
    license ≠ "" ∧ hwid ≠ "" ∧
    ∃ lic, getLicense noFaults db license = some lic ∧
      db2 = saveLicense noFaults
        (logActivity noFaults db "API_REGISTER"
          ("License: " ++ license ++ " HWID: " ++ hwid))
        license (registeredLicense lic hwid now ip ua) := by
  unfold register registerF at h
  by_cases hmiss : license = "" ∨ hwid = ""
  · rw [if_pos hmiss] at h
    exact Outcome.noConfusion (congrArg Prod.fst h)
  · rw [if_neg hmiss] at h
    push_neg at hmiss
    refine ⟨hmiss.1, hmiss.2, ?_⟩
    simp only [getSettings_logActivity, getBanlist_logActivity, getLicense_logActivity,
      getLicenses_logActivity] at h
    by_cases hapi : (getSettings noFaults db).apiEnabled = false
    · rw [if_pos hapi] at h
      exact Outcome.noConfusion (congrArg Prod.fst h)
    · rw [if_neg hapi] at h
      by_cases hban : isHWIDBanned hwid (getBanlist noFaults db) = true
      · rw [if_pos hban] at h
        exact Outcome.noConfusion (congrArg Prod.fst h)
      · rw [if_neg hban] at h
        cases hlic : getLicense noFaults db license with
        | none =>
          rw [hlic] at h
          exact Outcome.noConfusion (congrArg Prod.fst h)
        | some lic =>
          rw [hlic] at h
          dsimp only at h
          by_cases hexp : isLicenseExpired lic now = true
          · rw [if_pos hexp] at h
            exact Outcome.noConfusion (congrArg Prod.fst h)
          · rw [if_neg hexp] at h
            by_cases hbound : lic.hwid ≠ "" ∧ lic.hwid ≠ hwid
            · rw [if_pos hbound] at h
              exact Outcome.noConfusion (congrArg Prod.fst h)
            · rw [if_neg hbound] at h
              by_cases huse : hwidInUse (getLicenses noFaults db) license hwid = true
              · rw [if_pos huse] at h
                exact Outcome.noConfusion (congrArg Prod.fst h)
              · rw [if_neg huse] at h
                exact ⟨lic, rfl, (congrArg Prod.snd h).symm⟩

/-- C3: global HWID uniqueness — after register(k1, h) succeeds, a
register(k2, h) for any other existing unbound, non-expired license k2
(ban list and settings gates passing) returns HWID_IN_USE: a HWID binds
to at most one license across the whole store. -/
theorem register_global_hwid_uniqueness (db db1 : Store) (k1 k2 h : String)
    (t1 t2 : Nat) (ip1 ua1 ip2 ua2 : String) (lic2 : License)
    (hne : k2 ≠ k1) (hk2 : k2 ≠ "")
    (hreg : register db k1 h t1 ip1 ua1 = (Outcome.SUCCESS, db1))
    (hlic2 : getLicense noFaults db k2 = some lic2)
    (hunbound : lic2.hwid = "")
    (hexp : isLicenseExpired lic2 t2 = false)
    (hapi : (getSettings noFaults db).apiEnabled = true)
    (hban : isHWIDBanned h (getBanlist noFaults db) = false) :
    (register db1 k2 h t2 ip2 ua2).1 = Outcome.HWID_IN_USE := by
  obtain ⟨hk1, hh, lic1, hlic1, hdb1⟩ := register_success_inv db db1 k1 h t1 ip1 ua1 hreg
  subst hdb1
  have hapi1 : (getSettings noFaults (saveLicense noFaults
      (logActivity noFaults db "API_REGISTER" ("License: " ++ k1 ++ " HWID: " ++ h))
      k1 (registeredLicense lic1 h t1 ip1 ua1))).apiEnabled = true := by
    rw [getSettings_saveLicense, getSettings_logActivity]
    exact hapi
  have hban1 : isHWIDBanned h (getBanlist noFaults (saveLicense noFaults
      (logActivity noFaults db "API_REGISTER" ("License: " ++ k1 ++ " HWID: " ++ h))
      k1 (registeredLicense lic1 h t1 ip1 ua1))) = false := by
    rw [getBanlist_saveLicense, getBanlist_logActivity]
    exact hban
  have hlic2' : getLicense noFaults (saveLicense noFaults
      (logActivity noFaults db "API_REGISTER" ("License: " ++ k1 ++ " HWID: " ++ h))
      k1 (registeredLicense lic1 h t1 ip1 ua1)) k2 = some lic2 := by
    show lookupLicense (setLicense db.licenses k1 (registeredLicense lic1 h t1 ip1 ua1)) k2 =
      some lic2
    rw [lookupLicense_setLicense_ne _ _ _ hne]
    exact hlic2
  rw [register_eq _ k2 h t2 ip2 ua2 lic2 hk2 hh hapi1 hban1 hlic2' hexp]
  dsimp only
  rw [if_neg (by simp [hunbound])]
  have huse : hwidInUse (saveLicense noFaults
      (logActivity noFaults db "API_REGISTER" ("License: " ++ k1 ++ " HWID: " ++ h))
      k1 (registeredLicense lic1 h t1 ip1 ua1)).licenses k2 h = true := by
    apply (hwidInUse_iff _ _ _).mpr
    refine ⟨(k1, registeredLicense lic1 h t1 ip1 ua1), ?_, rfl, Ne.symm hne⟩
    apply mem_of_lookupLicense
    show lookupLicense (setLicense db.licenses k1 (registeredLicense lic1 h t1 ip1 ua1)) k1 =
      some (registeredLicense lic1 h t1 ip1 ua1)
    exact lookupLicense_setLicense_self _ _ _
  rw [if_pos huse]

/-- Witness for C3 at a concrete input: after K1 takes H1, registering
K2 with H1 is rejected as HWID_IN_USE. -/
theorem register_global_hwid_uniqueness_witness :
    (register (register dbTwo "K1" "H1" 5 "ip1" "UA").2 "K2" "H1" 6 "ip2" "UA").1 =
      Outcome.HWID_IN_USE := by
  have h := register_global_hwid_uniqueness dbTwo
    (register dbTwo "K1" "H1" 5 "ip1" "UA").2 "K1" "K2" "H1" 5 6 "ip1" "UA" "ip2" "UA"
    licUnbound (by decide) (by decide) (by decide) (by decide) (by decide) (by decide)
    (by decide) (by decide)
  exact h

/-- C4: registering the same device twice in sequence (record already
bound to h, no other license holding h, gates passing at both times)
yields SUCCESS both times; `activatedAt` and `lastValidated` are
re-stamped to the later time and history gains exactly one entry per
call. -/
theorem register_idempotent_same_device (db : Store) (k h : String) (t1 t2 : Nat)
    (ip1 ua1 ip2 ua2 : String) (lic : License)
    (hk : k ≠ "") (hh : h ≠ "")
    (hapi : (getSettings noFaults db).apiEnabled = true)
    (hban : isHWIDBanned h (getBanlist noFaults db) = false)
    (hlic : getLicense noFaults db k = some lic)
    (hbound : lic.hwid = h)
    (hexp1 : isLicenseExpired lic t1 = false)
    (hexp2 : isLicenseExpired lic t2 = false)
    (hnouse : hwidInUse db.licenses k h = false) :
    (register db k h t1 ip1 ua1).1 = Outcome.SUCCESS
    ∧ (register (register db k h t1 ip1 ua1).2 k h t2 ip2 ua2).1 = Outcome.SUCCESS
    ∧ (∃ mid, getLicense noFaults (register db k h t1 ip1 ua1).2 k = some mid
        ∧ mid.activatedAt = some t1 ∧ mid.lastValidated = some t1
        ∧ mid.history.length = lic.history.length + 1)
    ∧ (∃ fin2, getLicense noFaults
          (register (register db k h t1 ip1 ua1).2 k h t2 ip2 ua2).2 k = some fin2
        ∧ fin2.activatedAt = some t2 ∧ fin2.lastValidated = some t2
        ∧ fin2.history.length = lic.history.length + 2) := by
  have hnotdiff : ¬(lic.hwid ≠ "" ∧ lic.hwid ≠ h) := by
    simp [hbound]
  have e1 : register db k h t1 ip1 ua1 =
      (Outcome.SUCCESS,
        saveLicense noFaults
          (logActivity noFaults db "API_REGISTER" ("License: " ++ k ++ " HWID: " ++ h))
          k (registeredLicense lic h t1 ip1 ua1)) := by
    rw [register_eq db k h t1 ip1 ua1 lic hk hh hapi hban hlic hexp1]
    dsimp only
    rw [if_neg hnotdiff, if_neg (by simp [hnouse])]
  rw [e1]
  have hlic1 : getLicense noFaults (saveLicense noFaults
      (logActivity noFaults db "API_REGISTER" ("License: " ++ k ++ " HWID: " ++ h))
      k (registeredLicense lic h t1 ip1 ua1)) k =
      some (registeredLicense lic h t1 ip1 ua1) := by
    show lookupLicense (setLicense db.licenses k (registeredLicense lic h t1 ip1 ua1)) k = _
    exact lookupLicense_setLicense_self _ _ _
  have hapi1 : (getSettings noFaults (saveLicense noFaults
      (logActivity noFaults db "API_REGISTER" ("License: " ++ k ++ " HWID: " ++ h))
      k (registeredLicense lic h t1 ip1 ua1))).apiEnabled = true := by
    rw [getSettings_saveLicense, getSettings_logActivity]
    exact hapi
  have hban1 : isHWIDBanned h (getBanlist noFaults (saveLicense noFaults
      (logActivity noFaults db "API_REGISTER" ("License: " ++ k ++ " HWID: " ++ h))
      k (registeredLicense lic h t1 ip1 ua1))) = false := by
    rw [getBanlist_saveLicense, getBanlist_logActivity]
    exact hban
  have hexp1' : isLicenseExpired (registeredLicense lic h t1 ip1 ua1) t2 = false := hexp2
  have hnotdiff1 : ¬((registeredLicense lic h t1 ip1 ua1).hwid ≠ ""
      ∧ (registeredLicense lic h t1 ip1 ua1).hwid ≠ h) := by
    simp [registeredLicense]
  have hnouse1 : hwidInUse (saveLicense noFaults
      (logActivity noFaults db "API_REGISTER" ("License: " ++ k ++ " HWID: " ++ h))
      k (registeredLicense lic h t1 ip1 ua1)).licenses k h = false := by
    show hwidInUse (setLicense db.licenses k (registeredLicense lic h t1 ip1 ua1)) k h = false
    rw [hwidInUse_setLicense_self]
    exact hnouse
  have e2 : register (saveLicense noFaults
      (logActivity noFaults db "API_REGISTER" ("License: " ++ k ++ " HWID: " ++ h))
      k (registeredLicense lic h t1 ip1 ua1)) k h t2 ip2 ua2 =
      (Outcome.SUCCESS,
        saveLicense noFaults
          (logActivity noFaults
            (saveLicense noFaults
              (logActivity noFaults db "API_REGISTER" ("License: " ++ k ++ " HWID: " ++ h))
              k (registeredLicense lic h t1 ip1 ua1))
            "API_REGISTER" ("License: " ++ k ++ " HWID: " ++ h))
          k (registeredLicense (registeredLicense lic h t1 ip1 ua1) h t2 ip2 ua2)) := by
    rw [register_eq _ k h t2 ip2 ua2 (registeredLicense lic h t1 ip1 ua1)
      hk hh hapi1 hban1 hlic1 hexp1']
    dsimp only
    rw [if_neg hnotdiff1, if_neg (by simp [hnouse1])]
  rw [e2]
  refine ⟨rfl, rfl, ⟨registeredLicense lic h t1 ip1 ua1, hlic1, rfl, rfl, ?_⟩,
    ⟨registeredLicense (registeredLicense lic h t1 ip1 ua1) h t2 ip2 ua2, ?_, rfl, rfl, ?_⟩⟩
  · simp [registeredLicense]
  · show lookupLicense (setLicense (saveLicense noFaults
      (logActivity noFaults db "API_REGISTER" ("License: " ++ k ++ " HWID: " ++ h))
      k (registeredLicense lic h t1 ip1 ua1)).licenses
        k (registeredLicense (registeredLicense lic h t1 ip1 ua1) h t2 ip2 ua2)) k = _
    exact lookupLicense_setLicense_self _ _ _
  · simp [registeredLicense]

/-- Witness for C4 at a concrete input: registering K1 with its already
bound HWID H1 twice succeeds twice. -/
theorem register_idempotent_same_device_witness :
    (register dbBound "K1" "H1" 5 "ip1" "UA").1 = Outcome.SUCCESS
    ∧ (register (register dbBound "K1" "H1" 5 "ip1" "UA").2 "K1" "H1" 9 "ip2" "UA").1 =
        Outcome.SUCCESS := by
  have hw := register_idempotent_same_device dbBound "K1" "H1" 5 9 "ip1" "UA" "ip2" "UA"
    licBoundH1 (by decide) (by decide) (by decide) (by decide) (by decide) (by decide)
    (by decide) (by decide) (by decide)
  exact ⟨hw.1, hw.2.1⟩

/-- C5 counterexample: the claim says a banned HWID yields BANNED before
any other check, but with the API disabled both routes return
API_DISABLED for a banned HWID of an existing license — the API-disabled
check runs first. -/
theorem banned_not_first_counterexample :
    isHWIDBanned "H1" (getBanlist noFaults dbDisabledBan) = true
    ∧ (validate dbDisabledBan "K1" "H1" 0).1 = Outcome.API_DISABLED
    ∧ (register dbDisabledBan "K1" "H1" 0 "ip1" "UA").1 = Outcome.API_DISABLED
    ∧ Outcome.API_DISABLED ≠ Outcome.BANNED := by decide

/-- C5 amended: once the API-enabled gate (which precedes the ban check)
passes and both inputs are non-empty, a HWID in the ban list makes both
validate and register return BANNED before the existence, expiry and
binding checks — in particular for a key with no record, BANNED is
returned rather than INVALID_LICENSE. -/
theorem banned_precedes_existence (db : Store) (license hwid : String) (now : Nat)
    (ip ua : String) (hk : license ≠ "") (hh : hwid ≠ "")
    (hapi : (getSettings noFaults db).apiEnabled = true)
    (hban : isHWIDBanned hwid (getBanlist noFaults db) = true) :
    (validate db license hwid now).1 = Outcome.BANNED
    ∧ (register db license hwid now ip ua).1 = Outcome.BANNED := by
  constructor
  · unfold validate validateF
    rw [if_neg (by simp [hk, hh])]
    simp only [getSettings_logActivity, getBanlist_logActivity]
    rw [if_neg (by simp [hapi]), if_pos hban]
  · unfold register registerF
    rw [if_neg (by simp [hk, hh])]
    simp only [getSettings_logActivity, getBanlist_logActivity]
    rw [if_neg (by simp [hapi]), if_pos hban]

/-- Witness for the amended C5 at a concrete input: a banned HWID with a
key that has no record still yields BANNED on both routes. -/
theorem banned_precedes_existence_witness :
    (validate dbBanned "NOKEY" "H1" 0).1 = Outcome.BANNED
    ∧ (register dbBanned "NOKEY" "H1" 0 "ip1" "UA").1 = Outcome.BANNED :=
  banned_precedes_existence dbBanned "NOKEY" "H1" 0 "ip1" "UA"
    (by decide) (by decide) (by decide) (by decide)

/-- C6 counterexample: bulk generation performs no duplicate check — a
generated key that collides with the existing bound record K1 silently
merge-overwrites it (hwid cleared, history emptied), instead of failing
and leaving the original record unmodified. -/
theorem bulk_generate_overwrites_counterexample :
    Option.map License.hwid (getLicense noFaults dbDup "K1") = some "H1"
    ∧ Option.map (fun l => l.history.length) (getLicense noFaults dbDup "K1") = some 1
    ∧ Option.map License.hwid
        (getLicense noFaults (bulkGenerate noFaults dbDup ["K1"] 7 "admin" 99) "K1") =
        some ""
    ∧ Option.map (fun l => l.history.length)
        (getLicense noFaults (bulkGenerate noFaults dbDup ["K1"] 7 "admin" 99) "K1") =
        some 0
    ∧ getLicense noFaults (bulkGenerate noFaults dbDup ["K1"] 7 "admin" 99) "K1" ≠
        getLicense noFaults dbDup "K1" := by decide

/-- C6 amended: single-key creation rejects an existing key with a
duplicate-key alert and leaves the whole store unchanged; bulk
generation, however, performs no duplicate check — a generated key equal
to an existing one merge-overwrites that record's core fields (hwid,
activation time, expiry, history, creation data, batch id) in place. -/
theorem duplicate_key_rejected (db : Store) (key user : String) (expiry : Option Nat)
    (now bid : Nat) (lic : License)
    (hdup : getLicense noFaults db key = some lic) :
    generateLicense noFaults db key expiry now user = (false, db)
    ∧ getLicense noFaults (bulkGenerate noFaults db [key] now user bid) key =
        some { lic with
               hwid := "", activatedAt := none, expiry := none, history := []
               createdAt := now, createdBy := user, batchId := some bid } := by
  constructor
  · unfold generateLicense
    rw [hdup]
  · unfold bulkGenerate
    rw [if_neg (by simp)]
    simp only [List.foldl_cons, List.foldl_nil]
    rw [getLicense_logActivity, hdup]
    show lookupLicense
      (setLicense db.licenses key (bulkLicenseData (some lic) now user bid)) key = _
    rw [lookupLicense_setLicense_self]
    rfl

/-- Witness for the amended C6 at a concrete input: re-creating the
existing key K1 is rejected and the store is untouched. -/
theorem duplicate_key_rejected_witness :
    generateLicense noFaults dbOne "K1" none 7 "admin" = (false, dbOne) :=
  (duplicate_key_rejected dbOne "K1" "admin" none 7 99 licUnbound (by decide)).1

/-- C7 counterexample: the claim says a persistence fault yields the
generic ERROR outcome, but a failing license fetch yields the policy
outcome INVALID_LICENSE and a failing settings fetch yields
API_DISABLED — the helpers catch their own errors and return defaults,
so the route's ERROR branch is never reached by a persistence fault. -/
theorem persistence_fault_policy_outcome_counterexample :
    (validateF { noFaults with getLicenseFails := true } dbOne "K1" "H1" 0).1 =
      Outcome.INVALID_LICENSE
    ∧ (validateF { noFaults with getSettingsFails := true } dbOne "K1" "H1" 0).1 =
      Outcome.API_DISABLED
    ∧ Outcome.INVALID_LICENSE ≠ Outcome.ERROR
    ∧ Outcome.API_DISABLED ≠ Outcome.ERROR := by decide

/-- C7 amended: every DB helper catches its own persistence fault and
substitutes a default value (null record, empty ban list, empty settings
object), so validate and register never return ERROR under any fault
state and expose no fault detail; instead a settings-fetch fault
surfaces as the policy outcome API_DISABLED and a license-fetch fault
(with settings and ban list readable) as INVALID_LICENSE. -/
theorem persistence_faults_never_error (f : Faults) (db : Store) (license hwid : String)
    (now : Nat) (ip ua : String) :
    (validateF f db license hwid now).1 ≠ Outcome.ERROR
    ∧ (registerF f db license hwid now ip ua).1 ≠ Outcome.ERROR
    ∧ (f.getSettingsFails = true → license ≠ "" → hwid ≠ "" →
        (validateF f db license hwid now).1 = Outcome.API_DISABLED
        ∧ (registerF f db license hwid now ip ua).1 = Outcome.API_DISABLED)
    ∧ (f.getLicenseFails = true → license ≠ "" → hwid ≠ "" →
        (getSettings f db).apiEnabled = true →
        isHWIDBanned hwid (getBanlist f db) = false →
        (validateF f db license hwid now).1 = Outcome.INVALID_LICENSE
        ∧ (registerF f db license hwid now ip ua).1 = Outcome.INVALID_LICENSE) := by
  refine ⟨?_, ?_, ?_, ?_⟩
  · unfold validateF
    dsimp only
    repeat' split
    all_goals exact fun hc => Outcome.noConfusion hc
  · unfold registerF
    dsimp only
    repeat' split
    all_goals exact fun hc => Outcome.noConfusion hc
  · intro hf hk hh
    have hset : ∀ a d, (getSettings f (logActivity f db a d)).apiEnabled = false := by
      intro a d
      unfold getSettings
      rw [if_pos hf]
    constructor
    · unfold validateF
      rw [if_neg (by simp [hk, hh]), if_pos (hset _ _)]
    · unfold registerF
      rw [if_neg (by simp [hk, hh]), if_pos (hset _ _)]
  · intro hf hk hh hapi hban
    have hlic : ∀ a d, getLicense f (logActivity f db a d) license = none := by
      intro a d
      unfold getLicense
      rw [if_pos hf]
    constructor
    · unfold validateF
      rw [if_neg (by simp [hk, hh])]
      simp only [getSettings_logActivity, getBanlist_logActivity]
      rw [if_neg (by simp [hapi]), if_neg (by simp [hban]), hlic]
    · unfold registerF
      rw [if_neg (by simp [hk, hh])]
      simp only [getSettings_logActivity, getBanlist_logActivity]
      rw [if_neg (by simp [hapi]), if_neg (by simp [hban]), hlic]

/-- Witness for the amended C7 at a concrete input: with a failing
settings fetch the validate outcome is API_DISABLED, not ERROR. -/
theorem persistence_faults_never_error_witness :
    (validateF { noFaults with getSettingsFails := true } dbOne "K1" "H1" 0).1 =
      Outcome.API_DISABLED
    ∧ (validateF { noFaults with getSettingsFails := true } dbOne "K1" "H1" 0).1 ≠
      Outcome.ERROR := by
  have h := persistence_faults_never_error { noFaults with getSettingsFails := true }
    dbOne "K1" "H1" 0 "ip1" "UA"
  exact ⟨(h.2.2.1 rfl (by decide) (by decide)).1, h.1⟩

/-- C10: banning a HWID inserts its trimmed form: for a fresh
non-whitespace input the ban list gains exactly the trimmed string (so
the exact-match ban check matches the trimmed HWID and not the padded
original); whitespace-only input and an already-present trimmed value
leave the store unchanged. -/
theorem ban_hwid_trims_input (db : Store) (hwid : String) :
    (jsTrim hwid ≠ "" → jsTrim hwid ∉ getBanlist noFaults db →
      getBanlist noFaults (banHwidRoute noFaults db hwid) =
        getBanlist noFaults db ++ [jsTrim hwid]
      ∧ isHWIDBanned (jsTrim hwid)
          (getBanlist noFaults (banHwidRoute noFaults db hwid)) = true
      ∧ (hwid ≠ jsTrim hwid → hwid ∉ getBanlist noFaults db →
          isHWIDBanned hwid
            (getBanlist noFaults (banHwidRoute noFaults db hwid)) = false))
    ∧ (jsTrim hwid = "" → banHwidRoute noFaults db hwid = db)
    ∧ (jsTrim hwid ∈ getBanlist noFaults db → banHwidRoute noFaults db hwid = db) := by
  refine ⟨?_, ?_, ?_⟩
  · intro htrim hfresh
    have hw : hwid ≠ "" := by
      intro he
      exact htrim (by rw [he]; rfl)
    have hc : ((getBanlist noFaults db).contains (jsTrim hwid)) = false := by
      cases hb : (getBanlist noFaults db).contains (jsTrim hwid) with
      | false => rfl
      | true => exact absurd ((isHWIDBanned_iff _ _).mp hb) hfresh
    have hroute : banHwidRoute noFaults db hwid =
        logActivity noFaults
          (saveBanlist noFaults db (getBanlist noFaults db ++ [jsTrim hwid]))
          "HWID_BANNED" ("HWID: " ++ hwid) := by
      unfold banHwidRoute
      rw [if_pos ⟨hw, htrim⟩]
      dsimp only
      rw [if_pos hc]
    rw [hroute, getBanlist_logActivity]
    have hsv : getBanlist noFaults
        (saveBanlist noFaults db (getBanlist noFaults db ++ [jsTrim hwid])) =
        getBanlist noFaults db ++ [jsTrim hwid] := rfl
    rw [hsv]
    refine ⟨rfl, by simp [isHWIDBanned], ?_⟩
    intro hpad hpadfresh
    cases hb : isHWIDBanned hwid (getBanlist noFaults db ++ [jsTrim hwid]) with
    | false => rfl
    | true =>
      have := (isHWIDBanned_iff _ _).mp hb
      rw [List.mem_append] at this
      rcases this with hm | hm
      · exact absurd hm hpadfresh
      · exact absurd (List.mem_singleton.mp hm) hpad
  · intro htrim
    unfold banHwidRoute
    rw [if_neg (by simp [htrim])]
  · intro hmem
    unfold banHwidRoute
    by_cases hcond : hwid ≠ "" ∧ jsTrim hwid ≠ ""
    · rw [if_pos hcond]
      dsimp only
      have hc : ((getBanlist noFaults db).contains (jsTrim hwid)) = true :=
        (isHWIDBanned_iff _ _).mpr hmem
      rw [if_neg (fun hf => Bool.noConfusion (hc.symm.trans hf))]
    · rw [if_neg hcond]

/-- Witness for C10 at a concrete input: banning a padded HWID stores
only its trimmed form. -/
theorem ban_hwid_trims_input_witness :
    getBanlist noFaults (banHwidRoute noFaults dbOne " H1 ") =
      getBanlist noFaults dbOne ++ [jsTrim " H1 "]
    ∧ isHWIDBanned (jsTrim " H1 ")
        (getBanlist noFaults (banHwidRoute noFaults dbOne " H1 ")) = true
    ∧ isHWIDBanned " H1 "
        (getBanlist noFaults (banHwidRoute noFaults dbOne " H1 ")) = false := by
  have h := (ban_hwid_trims_input dbOne " H1 ").1 (by decide) (by decide)
  exact ⟨h.1, h.2.1, h.2.2 (by decide) (by decide)⟩

end PCOpt
